import Mathlib

/-!
Shallow embedding of the enhancemyseo backend.

Sources embedded:
- `backend/app/database/models.py` — the `Settings` and `Article` records
  (timestamps are modelled as natural numbers; a database row set is a
  `List Article`).
- `app/services/article_generator.py` — the `ArticleGenerator` class. The two
  external HTTP collaborators (the Perplexity research endpoint and the
  Anthropic completion endpoint) are modelled as oracle functions passed in as
  arguments; each generator call additionally reports which requests it issued,
  so that "no request was made" is expressible. The completion oracle returns
  `Except String String`: `Except.error e` models the Python call raising an
  exception with message `e`, `Except.ok t` models a response whose first
  content block has text `t`.
- `backend/app/services/routes.py` — the `/settings`, `/generate`,
  `/articles`, `/articles/<id>` and `/articles/<id>/publish` handlers. ORM
  queries are modelled over the article list: `filter_by` is `List.filter` /
  `List.find?`, `order_by(created_at.desc())` is an insertion sort by the
  newest-first relation, and `db.session.add` + `commit` appends the new row.

Python's `str.lower` is modelled by `pyLower` (character-wise `Char.toLower`),
and `os.getenv` by an environment oracle `String → Option String`.
-/

set_option maxRecDepth 100000

/-- Python `str.lower()` on a string (character-wise lowering). -/
def pyLower (s : String) : String := String.mk (s.data.map Char.toLower)

/-- The `settings` table row (`models.py`, class `Settings`). Nullable text
columns are modelled as `String` (the JSON payloads written through the routes
are strings). -/
structure Settings where
  id : String
  user_id : String
  shopify_url : String
  brand_name : String
  business_type : String
  brand_guidelines : String
  content_type : String
deriving DecidableEq

/-- The `users` table row, restricted to the fields the service routes read:
the identity and the optional one-to-one `settings` relationship. -/
structure User where
  id : String
  settings : Option Settings
deriving DecidableEq

/-- The `articles` table row (`models.py`, class `Article`). `created_at` is a
numeric timestamp; `published` defaults to `false` and `publish_url` to
`none` at creation, as in the column defaults. -/
structure Article where
  id : String
  user_id : String
  keyword : String
  content : String
  html_content : String
  published : Bool
  publish_url : Option String
  created_at : Nat
deriving DecidableEq

/-- The column names of the `settings` table that a JSON payload key can
address via `setattr` in `manage_settings` (no allow-list is applied there). -/
inductive SettingsKey where
  | id
  | user_id
  | shopify_url
  | brand_name
  | business_type
  | brand_guidelines
  | content_type
deriving DecidableEq

/-- `setattr(settings, key, value)` on one column. -/
def Settings.setAttr (s : Settings) (k : SettingsKey) (v : String) : Settings :=
  match k with
  | .id => { s with id := v }
  | .user_id => { s with user_id := v }
  | .shopify_url => { s with shopify_url := v }
  | .brand_name => { s with brand_name := v }
  | .business_type => { s with business_type := v }
  | .brand_guidelines => { s with brand_guidelines := v }
  | .content_type => { s with content_type := v }

/-- `getattr(settings, key)` on one column. -/
def Settings.getAttr (s : Settings) (k : SettingsKey) : String :=
  match k with
  | .id => s.id
  | .user_id => s.user_id
  | .shopify_url => s.shopify_url
  | .brand_name => s.brand_name
  | .business_type => s.business_type
  | .brand_guidelines => s.brand_guidelines
  | .content_type => s.content_type

/-- `for key, value in data.items(): setattr(user.settings, key, value)` —
the JSON payload is a sequence of key/value pairs applied in order. -/
def applySetattr (s : Settings) (data : List (SettingsKey × String)) : Settings :=
  data.foldl (fun acc kv => acc.setAttr kv.1 kv.2) s

/-- POST branch of `manage_settings` (`routes.py` lines 27–41): if the user has
no settings row a fresh one is created from the generated id, the JWT identity
and the payload fields (`Settings(id=..., user_id=..., **data)`); otherwise
every payload key is written onto the existing row with `setattr`. Returns the
stored row. -/
def manage_settings_post (current_user_id : String) (user_settings : Option Settings)
    (new_id : String) (data : List (SettingsKey × String)) : Settings :=
  match user_settings with
  | none =>
      applySetattr
        { id := new_id, user_id := current_user_id, shopify_url := "",
          brand_name := "", business_type := "", brand_guidelines := "",
          content_type := "" } data
  | some s => applySetattr s data

/-- The HTTP request `get_perplexity_info` posts to the research endpoint. -/
structure PerplexityRequest where
  url : String
  model : String
  system_message : String
  user_message : String
  authorization : String
deriving DecidableEq

/-- The research endpoint's answer: an HTTP status code and the text of
`json()["choices"][0]["message"]["content"]`. -/
structure PerplexityResponse where
  status_code : Nat
  first_message_content : String
deriving DecidableEq

/-- The request `generate_article` sends to the completion endpoint. -/
structure CompletionRequest where
  model : String
  max_tokens : Nat
  system : String
  user_message : String
deriving DecidableEq

/-- State of an `ArticleGenerator` instance after `__init__`. -/
structure ArticleGenerator where
  settings : Settings
  perplexity_api_key : Option String
  use_perplexity : Bool
deriving DecidableEq

/-- `ArticleGenerator.__init__` (lines 7–11): reads the environment;
`use_perplexity` is true exactly when `os.getenv('USE_PERPLEXITY', 'false')`
lowercased equals `"true"`. -/
def ArticleGenerator.init (user_settings : Settings) (env : String → Option String) :
    ArticleGenerator :=
  { settings := user_settings
    perplexity_api_key := env "PERPLEXITY_API_KEY"
    use_perplexity := pyLower ((env "USE_PERPLEXITY").getD "false") == "true" }

/-- `get_perplexity_info` (lines 13–37). Returns the request it issued (or
`none` when the flag is off and no request is made) together with the research
text: the first message content on HTTP 200, the empty string otherwise. -/
def ArticleGenerator.get_perplexity_info (gen : ArticleGenerator) (keyword : String)
    (respond : PerplexityRequest → PerplexityResponse) :
    Option PerplexityRequest × String :=
  if !gen.use_perplexity then (none, "")
  else
    let req : PerplexityRequest :=
      { url := "https://api.perplexity.ai/chat/completions"
        model := "llama-3-sonar-large-32k-online"
        system_message := "Be precise and concise."
        user_message := "Research information about " ++ keyword
        authorization := "Bearer " ++ (gen.perplexity_api_key.getD "None") }
    let resp := respond req
    if resp.status_code == 200 then (some req, resp.first_message_content)
    else (some req, "")

/-- The system prompt of the completion call (line 42). -/
def systemPromptFor (perplexity_info : String) : String :=
  "Use " ++ perplexity_info ++ " as closely as possible"

/-- Literal segment of the user-prompt f-string before the research text. -/
def promptPart1 : String :=
  "\n        DO NOT START WITH ANYTHING EXCEPT <H1>. Start every page off immediately, do not chat back to me in anyawy.\n        Use "

/-- Literal segment between the research text and the brand name. -/
def promptPart2 : String :=
  " to inform all of your decisions and claims.\n        You are writing for "

/-- Literal segment between the brand name and the keyword. -/
def promptPart3 : String :=
  ". Write from the perspective of this brand.\n        DO NOT INCLUDE ANY EXTERNAL LINKS TO COMPETITORS.\n        Please write a long-form SEO-optimized article with 1500 words about the following keyword: "

/-- Literal segment between the keyword and the content tone. -/
def promptPart4 : String :=
  ".\n        Answer in HTML, starting with one single <h1> tag, as this is going on wordpress, do not give unecessary HTML tags.\n        Please use a lot of formatting, tables are great for ranking on Google.\n        Always include a key takeaways table at the top giving the key information for this topic at the very top of the article.\n\n        The article should be written in a "

/-- Literal segment between the content tone and the brand guidelines. -/
def promptPart5 : String :=
  " tone and framed as an expert piece.\n        Incorporate the brand guidelines:\n        "

/-- Literal segment between the brand guidelines and the business type. -/
def promptPart6 : String :=
  "\n\n        This is a "

/-- Literal segment after the business type. -/
def promptPart7 : String :=
  " so write from the perspective of that business.\n        "

/-- The user prompt of the completion call (lines 43–58): the f-string, with
its literal segments and interpolated values concatenated in source order. -/
def userPromptFor (perplexity_info : String) (s : Settings) (keyword : String) : String :=
  promptPart1 ++ perplexity_info ++ promptPart2 ++ s.brand_name ++ promptPart3
  ++ keyword ++ promptPart4 ++ s.content_type ++ promptPart5 ++ s.brand_guidelines
  ++ promptPart6 ++ s.business_type ++ promptPart7

/-- The dictionary `generate_article` returns on success (lines 68–72). -/
structure GenResult where
  content : String
  html_content : String
  perplexity_info : String
deriving DecidableEq

/-- Trace of one `generate_article` call: the research request it issued (if
any), the completion request it issued, and either the returned dictionary or
the message of the re-raised exception. -/
structure GenTrace where
  researchCall : Option PerplexityRequest
  completionCall : CompletionRequest
  result : Except String GenResult

/-- `generate_article` (lines 39–75): research stage, prompt construction,
completion call with fixed model and max-token budget; on success both
`content` and `html_content` are set to `response.content[0].text`; on an
exception the error is re-raised with the original message appended to
`"Error generating article: "`. -/
def ArticleGenerator.generate_article (gen : ArticleGenerator) (keyword : String)
    (respond : PerplexityRequest → PerplexityResponse)
    (complete : CompletionRequest → Except String String) : GenTrace :=
  let research := gen.get_perplexity_info keyword respond
  let perplexity_info := research.2
  let req : CompletionRequest :=
    { model := "claude-3-opus-20240229"
      max_tokens := 4000
      system := systemPromptFor perplexity_info
      user_message := userPromptFor perplexity_info gen.settings keyword }
  { researchCall := research.1
    completionCall := req
    result :=
      match complete req with
      | Except.ok text =>
          Except.ok
            { content := text, html_content := text, perplexity_info := perplexity_info }
      | Except.error e => Except.error ("Error generating article: " ++ e) }

/-- Observable outcome of one call to the `/generate` route: HTTP status,
error body (if any), the articles table afterwards, and the external requests
issued during the call. -/
structure GenerateOutcome where
  status : Nat
  error : Option String
  articles : List Article
  researchCall : Option PerplexityRequest
  completionCall : Option CompletionRequest
deriving DecidableEq

/-- The `/generate` route (`routes.py` lines 43–79). `body_keyword` is
`data.get('keyword')` (`none` when the key is absent); `new_id` is the
generated UUID and `now` the row's creation timestamp. Missing settings or a
falsy keyword answer 400 before anything else happens; a generation exception
answers 500 with the exception's message and commits nothing; on success the
new row is added and committed, and 201 is returned. -/
def generate_route (user : User) (body_keyword : Option String)
    (env : String → Option String)
    (respond : PerplexityRequest → PerplexityResponse)
    (complete : CompletionRequest → Except String String)
    (new_id : String) (now : Nat) (articles : List Article) : GenerateOutcome :=
  match user.settings with
  | none =>
      { status := 400, error := some "Please configure your settings first",
        articles := articles, researchCall := none, completionCall := none }
  | some s =>
      let keyword := body_keyword.getD ""
      if keyword = "" then
        { status := 400, error := some "Keyword is required",
          articles := articles, researchCall := none, completionCall := none }
      else
        let generator := ArticleGenerator.init s env
        let t := generator.generate_article keyword respond complete
        match t.result with
        | Except.ok result =>
            let article : Article :=
              { id := new_id, user_id := user.id, keyword := keyword,
                content := result.content, html_content := result.html_content,
                published := false, publish_url := none, created_at := now }
            { status := 201, error := none, articles := articles ++ [article],
              researchCall := t.researchCall, completionCall := some t.completionCall }
        | Except.error e =>
            { status := 500, error := some e, articles := articles,
              researchCall := t.researchCall, completionCall := some t.completionCall }

/-- The ordering `order_by(Article.created_at.desc())` sorts by: `a` before
`b` when `a` was created no earlier than `b`. -/
def newestFirst (a b : Article) : Prop := b.created_at ≤ a.created_at

instance : DecidableRel newestFirst := fun a b => Nat.decLe b.created_at a.created_at

instance : IsTotal Article newestFirst :=
  ⟨fun a b => Nat.le_total b.created_at a.created_at⟩

instance : IsTrans Article newestFirst :=
  ⟨fun _ _ _ h1 h2 => Nat.le_trans h2 h1⟩

/-- The `/articles` route (lines 81–89): the caller's rows, newest first. -/
def get_articles_route (current_user_id : String) (articles : List Article) :
    List Article :=
  List.insertionSort newestFirst
    (articles.filter (fun a => a.user_id == current_user_id))

/-- The `/articles/<article_id>` route (lines 91–100): first row matching both
the path id and the JWT identity, or `none` (the 404 branch). -/
def get_article_route (current_user_id : String) (article_id : String)
    (articles : List Article) : Option Article :=
  articles.find? (fun a => a.id == article_id && a.user_id == current_user_id)

/-- The static placeholder publish URL (line 113). -/
def publishPlaceholderURL : String :=
  "https://your-shop.myshopify.com/blogs/news/article-url"

/-- The mutation `publish_article` performs on the found row (lines 112–113). -/
def publishUpdate (a : Article) : Article :=
  { a with published := true, publish_url := some publishPlaceholderURL }

/-- Outcome of one call to the publish route: status and the table after. -/
structure PublishOutcome where
  status : Nat
  articles : List Article
deriving DecidableEq

/-- The `/articles/<article_id>/publish` route (lines 102–120): 404 when no
row matches both the id and the JWT identity; otherwise the matching row is
mutated and committed and 200 is returned. -/
def publish_article_route (current_user_id : String) (article_id : String)
    (articles : List Article) : PublishOutcome :=
  match articles.find? (fun a => a.id == article_id && a.user_id == current_user_id) with
  | none => { status := 404, articles := articles }
  | some _ =>
      { status := 200
        articles := articles.map (fun a =>
          if a.id == article_id && a.user_id == current_user_id then publishUpdate a
          else a) }

/-- `t` occurs verbatim as a substring of `s`. -/
def isSubstrOf (t s : String) : Prop :=
  ∃ u v, s.data = u ++ t.data ++ v

/-! ### Substring helpers -/

/-- A string equal to `u ++ t ++ v` contains `t`. -/
theorem isSubstrOf_of_parts (u t v s : String) (h : s.data = u.data ++ t.data ++ v.data) :
    isSubstrOf t s :=
  ⟨u.data, v.data, h⟩

/-! ### Helper lemmas -/

/-- Reading a column another column was written to leaves it unchanged. -/
theorem getAttr_setAttr_ne (s : Settings) (k k' : SettingsKey) (v : String)
    (h : k ≠ k') : (s.setAttr k' v).getAttr k = s.getAttr k := by
  cases k <;> cases k' <;> simp_all [Settings.setAttr, Settings.getAttr]

/-- Reading the column just written returns the written value. -/
theorem getAttr_setAttr_same (s : Settings) (k : SettingsKey) (v : String) :
    (s.setAttr k v).getAttr k = v := by
  cases k <;> rfl

/-- Columns not named in the payload survive `applySetattr` unchanged. -/
theorem getAttr_applySetattr_not_mem (data : List (SettingsKey × String))
    (s : Settings) (k : SettingsKey) (h : k ∉ data.map Prod.fst) :
    (applySetattr s data).getAttr k = s.getAttr k := by
  induction data generalizing s with
  | nil => rfl
  | cons kv rest ih =>
      simp only [List.map_cons, List.mem_cons, not_or] at h
      have hstep : applySetattr s (kv :: rest) = applySetattr (s.setAttr kv.1 kv.2) rest := rfl
      rw [hstep, ih _ h.2, getAttr_setAttr_ne _ _ _ _ h.1]

/-- A payload key whose last occurrence carries `v` leaves `v` in the column. -/
theorem getAttr_applySetattr_last (pre post : List (SettingsKey × String))
    (s : Settings) (k : SettingsKey) (v : String) (h : k ∉ post.map Prod.fst) :
    (applySetattr s (pre ++ (k, v) :: post)).getAttr k = v := by
  have happ : applySetattr s (pre ++ (k, v) :: post)
      = applySetattr ((applySetattr s pre).setAttr k v) post := by
    simp [applySetattr, List.foldl_append]
  rw [happ, getAttr_applySetattr_not_mem _ _ _ h, getAttr_setAttr_same]

/-- `find?` commutes with a `map` whose function preserves the predicate. -/
theorem find?_map_pres {α : Type} (p : α → Bool) (g : α → α)
    (hp : ∀ x, p (g x) = p x) (l : List α) :
    (l.map g).find? p = (l.find? p).map g := by
  induction l with
  | nil => rfl
  | cons x rest ih =>
      by_cases hx : p x = true
      · simp [List.find?, hp, hx]
      · simp only [Bool.not_eq_true] at hx
        simp [List.find?, hp, hx, ih]

/-- Mapping an idempotent function twice is the same as mapping it once. -/
theorem map_idem {α : Type} (g : α → α) (hg : ∀ x, g (g x) = g x) (l : List α) :
    (l.map g).map g = l.map g := by
  induction l with
  | nil => rfl
  | cons x rest ih => simp [hg, ih]

/-! ### Claim theorems -/

/-- C5: for every keyword, settings record, research text and pair of oracles,
the user prompt of the completion call issued by `generate_article` contains,
verbatim as substrings, the settings' `brand_name`, `business_type`,
`content_type` (the tone) and `brand_guidelines` values, the keyword, and the
requested word count `1500`. -/
theorem user_prompt_embeds_fields (gen : ArticleGenerator) (keyword : String)
    (respond : PerplexityRequest → PerplexityResponse)
    (complete : CompletionRequest → Except String String) :
    isSubstrOf gen.settings.brand_name
      (gen.generate_article keyword respond complete).completionCall.user_message ∧
    isSubstrOf gen.settings.business_type
      (gen.generate_article keyword respond complete).completionCall.user_message ∧
    isSubstrOf gen.settings.content_type
      (gen.generate_article keyword respond complete).completionCall.user_message ∧
    isSubstrOf gen.settings.brand_guidelines
      (gen.generate_article keyword respond complete).completionCall.user_message ∧
    isSubstrOf keyword
      (gen.generate_article keyword respond complete).completionCall.user_message ∧
    isSubstrOf "1500"
      (gen.generate_article keyword respond complete).completionCall.user_message := by
  have hmsg : (gen.generate_article keyword respond complete).completionCall.user_message
      = userPromptFor (gen.get_perplexity_info keyword respond).2 gen.settings keyword := rfl
  rw [hmsg]
  generalize (gen.get_perplexity_info keyword respond).2 = info
  have h1500 : promptPart3.data
      = (". Write from the perspective of this brand.\n        DO NOT INCLUDE ANY EXTERNAL LINKS TO COMPETITORS.\n        Please write a long-form SEO-optimized article with ").data
        ++ ("1500".data ++ (" words about the following keyword: ").data) := by decide
  refine ⟨?_, ?_, ?_, ?_, ?_, ?_⟩
  · exact isSubstrOf_of_parts (promptPart1 ++ info ++ promptPart2) _
      (promptPart3 ++ keyword ++ promptPart4 ++ gen.settings.content_type ++ promptPart5
        ++ gen.settings.brand_guidelines ++ promptPart6 ++ gen.settings.business_type
        ++ promptPart7) _
      (by simp [userPromptFor, String.data_append, List.append_assoc])
  · exact isSubstrOf_of_parts
      (promptPart1 ++ info ++ promptPart2 ++ gen.settings.brand_name ++ promptPart3
        ++ keyword ++ promptPart4 ++ gen.settings.content_type ++ promptPart5
        ++ gen.settings.brand_guidelines ++ promptPart6) _ promptPart7 _
      (by simp [userPromptFor, String.data_append, List.append_assoc])
  · exact isSubstrOf_of_parts
      (promptPart1 ++ info ++ promptPart2 ++ gen.settings.brand_name ++ promptPart3
        ++ keyword ++ promptPart4) _
      (promptPart5 ++ gen.settings.brand_guidelines ++ promptPart6
        ++ gen.settings.business_type ++ promptPart7) _
      (by simp [userPromptFor, String.data_append, List.append_assoc])
  · exact isSubstrOf_of_parts
      (promptPart1 ++ info ++ promptPart2 ++ gen.settings.brand_name ++ promptPart3
        ++ keyword ++ promptPart4 ++ gen.settings.content_type ++ promptPart5) _
      (promptPart6 ++ gen.settings.business_type ++ promptPart7) _
      (by simp [userPromptFor, String.data_append, List.append_assoc])
  · exact isSubstrOf_of_parts
      (promptPart1 ++ info ++ promptPart2 ++ gen.settings.brand_name ++ promptPart3) _
      (promptPart4 ++ gen.settings.content_type ++ promptPart5
        ++ gen.settings.brand_guidelines ++ promptPart6 ++ gen.settings.business_type
        ++ promptPart7) _
      (by simp [userPromptFor, String.data_append, List.append_assoc])
  · exact isSubstrOf_of_parts
      (promptPart1 ++ info ++ promptPart2 ++ gen.settings.brand_name
        ++ ". Write from the perspective of this brand.\n        DO NOT INCLUDE ANY EXTERNAL LINKS TO COMPETITORS.\n        Please write a long-form SEO-optimized article with ") _
      (" words about the following keyword: " ++ keyword ++ promptPart4
        ++ gen.settings.content_type ++ promptPart5 ++ gen.settings.brand_guidelines
        ++ promptPart6 ++ gen.settings.business_type ++ promptPart7) _
      (by simp [userPromptFor, String.data_append, List.append_assoc, h1500])

/-- C4: when the research flag is disabled, generating an article for any
keyword issues no request to the research endpoint, and the empty string is
embedded as the research text in both the system prompt and the user prompt of
the completion call. -/
theorem research_disabled_skips_endpoint (gen : ArticleGenerator)
    (h : gen.use_perplexity = false) (keyword : String)
    (respond : PerplexityRequest → PerplexityResponse)
    (complete : CompletionRequest → Except String String) :
    gen.get_perplexity_info keyword respond = (none, "") ∧
    (gen.generate_article keyword respond complete).researchCall = none ∧
    (gen.generate_article keyword respond complete).completionCall.system
      = systemPromptFor "" ∧
    (gen.generate_article keyword respond complete).completionCall.user_message
      = userPromptFor "" gen.settings keyword := by
  have h1 : gen.get_perplexity_info keyword respond = (none, "") := by
    simp [ArticleGenerator.get_perplexity_info, h]
  refine ⟨h1, ?_, ?_, ?_⟩ <;>
    simp [ArticleGenerator.generate_article, h1]

/-- Witness for C4 at a concrete generator with the flag off. -/
theorem research_disabled_skips_endpoint_witness :
    (ArticleGenerator.get_perplexity_info
      { settings := { id := "s1", user_id := "u1", shopify_url := "",
                      brand_name := "VoltCo", business_type := "retailer",
                      brand_guidelines := "friendly tone", content_type := "casual" },
        perplexity_api_key := none, use_perplexity := false }
      "electric bikes" (fun _ => { status_code := 200, first_message_content := "r" }))
      = (none, "") :=
  (research_disabled_skips_endpoint
    { settings := { id := "s1", user_id := "u1", shopify_url := "",
                    brand_name := "VoltCo", business_type := "retailer",
                    brand_guidelines := "friendly tone", content_type := "casual" },
      perplexity_api_key := none, use_perplexity := false }
    rfl "electric bikes" (fun _ => { status_code := 200, first_message_content := "r" })
    (fun _ => Except.ok "article")).1

/-- C10: the research stage is enabled exactly when the `USE_PERPLEXITY`
environment variable, lowercased, equals the string `"true"`; any other value
— including an unset variable, which defaults to `"false"` — disables research
and makes `get_perplexity_info` return the empty string (and issue no request)
for every keyword. -/
theorem use_perplexity_env_gate (user_settings : Settings)
    (env : String → Option String) (keyword : String)
    (respond : PerplexityRequest → PerplexityResponse) :
    ((ArticleGenerator.init user_settings env).use_perplexity = true ↔
      pyLower ((env "USE_PERPLEXITY").getD "false") = "true") ∧
    (pyLower ((env "USE_PERPLEXITY").getD "false") ≠ "true" →
      (ArticleGenerator.init user_settings env).get_perplexity_info keyword respond
        = (none, "")) ∧
    (env "USE_PERPLEXITY" = none →
      (ArticleGenerator.init user_settings env).use_perplexity = false ∧
      (ArticleGenerator.init user_settings env).get_perplexity_info keyword respond
        = (none, "")) := by
  refine ⟨?_, ?_, ?_⟩
  · simp [ArticleGenerator.init]
  · intro hne
    have hflag : (ArticleGenerator.init user_settings env).use_perplexity = false := by
      simp [ArticleGenerator.init, hne]
    simp [ArticleGenerator.get_perplexity_info, hflag]
  · intro hnone
    have hflag : (ArticleGenerator.init user_settings env).use_perplexity = false := by
      simp [ArticleGenerator.init, hnone, pyLower]
    exact ⟨hflag, by simp [ArticleGenerator.get_perplexity_info, hflag]⟩

/-- Witness for C10: with the variable unset, research is skipped. -/
theorem use_perplexity_env_gate_witness :
    (ArticleGenerator.init
      { id := "s2", user_id := "u2", shopify_url := "", brand_name := "b",
        business_type := "t", brand_guidelines := "g", content_type := "c" }
      (fun _ => none)).get_perplexity_info "solar"
      (fun _ => { status_code := 200, first_message_content := "r" }) = (none, "") :=
  (use_perplexity_env_gate
    { id := "s2", user_id := "u2", shopify_url := "", brand_name := "b",
      business_type := "t", brand_guidelines := "g", content_type := "c" }
    (fun _ => none) "solar"
    (fun _ => { status_code := 200, first_message_content := "r" })).2.1 (by decide)

/-- C1: when the completion-stage call raises (here: the completion oracle
fails with message `e` on every request), the generator re-raises a generation
failure carrying the original message, the generate route answers 500 with
that message as its error body, and the articles table is unchanged — no row
is persisted. -/
theorem generation_exception_wrapped_500 (user : User) (s : Settings)
    (hs : user.settings = some s) (kw : String) (hkw : kw ≠ "")
    (env : String → Option String)
    (respond : PerplexityRequest → PerplexityResponse) (e : String)
    (complete : CompletionRequest → Except String String)
    (hc : ∀ req, complete req = Except.error e)
    (new_id : String) (now : Nat) (articles : List Article) :
    (∀ gen : ArticleGenerator,
      (gen.generate_article kw respond complete).result
        = Except.error ("Error generating article: " ++ e)) ∧
    (generate_route user (some kw) env respond complete new_id now articles).status
      = 500 ∧
    (generate_route user (some kw) env respond complete new_id now articles).error
      = some ("Error generating article: " ++ e) ∧
    (generate_route user (some kw) env respond complete new_id now articles).articles
      = articles := by
  have hres : ∀ gen : ArticleGenerator,
      (gen.generate_article kw respond complete).result
        = Except.error ("Error generating article: " ++ e) := by
    intro gen
    simp [ArticleGenerator.generate_article, hc]
  refine ⟨hres, ?_, ?_, ?_⟩ <;>
    simp [generate_route, hs, hkw, hres]

/-- Witness for C1 at a concrete user, keyword and failing oracle. -/
theorem generation_exception_wrapped_500_witness :
    (generate_route
      { id := "u1",
        settings := some { id := "s1", user_id := "u1", shopify_url := "",
                           brand_name := "VoltCo", business_type := "retailer",
                           brand_guidelines := "friendly tone", content_type := "casual" } }
      (some "electric bikes") (fun _ => none)
      (fun _ => { status_code := 200, first_message_content := "r" })
      (fun _ => Except.error "rate limited") "a1" 7 []).error
      = some ("Error generating article: " ++ "rate limited") :=
  (generation_exception_wrapped_500
    { id := "u1",
      settings := some { id := "s1", user_id := "u1", shopify_url := "",
                         brand_name := "VoltCo", business_type := "retailer",
                         brand_guidelines := "friendly tone", content_type := "casual" } }
    { id := "s1", user_id := "u1", shopify_url := "", brand_name := "VoltCo",
      business_type := "retailer", brand_guidelines := "friendly tone",
      content_type := "casual" }
    rfl "electric bikes" (by decide) (fun _ => none)
    (fun _ => { status_code := 200, first_message_content := "r" })
    "rate limited" (fun _ => Except.error "rate limited") (fun _ => rfl)
    "a1" 7 []).2.2.1

/-- C3: a generate request from a user without settings, or whose body lacks a
keyword (absent key or falsy empty string), is answered 400, no external
request of either kind is issued, and the articles table is unchanged. -/
theorem invalid_generate_rejected_400 (user : User) (body_keyword : Option String)
    (env : String → Option String)
    (respond : PerplexityRequest → PerplexityResponse)
    (complete : CompletionRequest → Except String String)
    (new_id : String) (now : Nat) (articles : List Article)
    (h : user.settings = none ∨ body_keyword.getD "" = "") :
    (generate_route user body_keyword env respond complete new_id now articles).status
      = 400 ∧
    (generate_route user body_keyword env respond complete new_id now articles).articles
      = articles ∧
    (generate_route user body_keyword env respond complete new_id now articles).researchCall
      = none ∧
    (generate_route user body_keyword env respond complete new_id now articles).completionCall
      = none := by
  rcases h with h | h
  · refine ⟨?_, ?_, ?_, ?_⟩ <;> simp [generate_route, h]
  · cases hs : user.settings with
    | none => refine ⟨?_, ?_, ?_, ?_⟩ <;> simp [generate_route, hs]
    | some s => refine ⟨?_, ?_, ?_, ?_⟩ <;> simp [generate_route, hs, h]

/-- Witness for C3 at a concrete user without settings. -/
theorem invalid_generate_rejected_400_witness :
    (generate_route { id := "u9", settings := none } (some "bikes") (fun _ => none)
      (fun _ => { status_code := 200, first_message_content := "r" })
      (fun _ => Except.ok "article") "a9" 3 []).status = 400 :=
  (invalid_generate_rejected_400 { id := "u9", settings := none } (some "bikes")
    (fun _ => none)
    (fun _ => { status_code := 200, first_message_content := "r" })
    (fun _ => Except.ok "article") "a9" 3 [] (Or.inl rfl)).1

/-- C7: when the completion call succeeds with first content block `t`, the
returned record holds `t` in both `content` and `html_content`, and the route
persists exactly one new row storing that same value in both columns. -/
theorem success_content_equals_html (user : User) (s : Settings)
    (hs : user.settings = some s) (kw : String) (hkw : kw ≠ "")
    (env : String → Option String)
    (respond : PerplexityRequest → PerplexityResponse) (t : String)
    (complete : CompletionRequest → Except String String)
    (hc : ∀ req, complete req = Except.ok t)
    (new_id : String) (now : Nat) (articles : List Article) :
    (∀ (gen : ArticleGenerator) (r : GenResult),
      (gen.generate_article kw respond complete).result = Except.ok r →
      r.content = r.html_content ∧ r.content = t) ∧
    (generate_route user (some kw) env respond complete new_id now articles).status
      = 201 ∧
    (generate_route user (some kw) env respond complete new_id now articles).articles
      = articles ++
        [{ id := new_id, user_id := user.id, keyword := kw, content := t,
           html_content := t, published := false, publish_url := none,
           created_at := now }] := by
  have hres : ∀ gen : ArticleGenerator,
      (gen.generate_article kw respond complete).result
        = Except.ok { content := t, html_content := t,
                      perplexity_info := (gen.get_perplexity_info kw respond).2 } := by
    intro gen
    simp [ArticleGenerator.generate_article, hc]
  refine ⟨?_, ?_, ?_⟩
  · intro gen r hr
    rw [hres gen] at hr
    cases hr
    exact ⟨rfl, rfl⟩
  · simp [generate_route, hs, hkw, hres]
  · simp [generate_route, hs, hkw, hres]

/-- Witness for C7 at a concrete user and succeeding oracle. -/
theorem success_content_equals_html_witness :
    (generate_route
      { id := "u1",
        settings := some { id := "s1", user_id := "u1", shopify_url := "",
                           brand_name := "VoltCo", business_type := "retailer",
                           brand_guidelines := "friendly tone", content_type := "casual" } }
      (some "electric bikes") (fun _ => none)
      (fun _ => { status_code := 200, first_message_content := "r" })
      (fun _ => Except.ok "<h1>Bikes</h1>") "a2" 9 []).articles
      = [{ id := "a2", user_id := "u1", keyword := "electric bikes",
           content := "<h1>Bikes</h1>", html_content := "<h1>Bikes</h1>",
           published := false, publish_url := none, created_at := 9 }] :=
  (success_content_equals_html
    { id := "u1",
      settings := some { id := "s1", user_id := "u1", shopify_url := "",
                         brand_name := "VoltCo", business_type := "retailer",
                         brand_guidelines := "friendly tone", content_type := "casual" } }
    { id := "s1", user_id := "u1", shopify_url := "", brand_name := "VoltCo",
      business_type := "retailer", brand_guidelines := "friendly tone",
      content_type := "casual" }
    rfl "electric bikes" (by decide) (fun _ => none)
    (fun _ => { status_code := 200, first_message_content := "r" })
    "<h1>Bikes</h1>" (fun _ => Except.ok "<h1>Bikes</h1>") (fun _ => rfl)
    "a2" 9 []).2.2

/-- C2: the article list route returns exactly the rows whose `user_id` is
the authenticated identity, ordered newest first, and the single-article
route never returns a row owned by a different user, whatever id is
supplied. -/
theorem articles_scoped_and_sorted (current_user_id : String)
    (articles : List Article) :
    (∀ a : Article, a ∈ get_articles_route current_user_id articles ↔
      a ∈ articles ∧ a.user_id = current_user_id) ∧
    List.Sorted newestFirst (get_articles_route current_user_id articles) ∧
    (∀ (article_id : String) (a : Article),
      get_article_route current_user_id article_id articles = some a →
      a.user_id = current_user_id) := by
  refine ⟨?_, ?_, ?_⟩
  · intro a
    unfold get_articles_route
    rw [(List.perm_insertionSort newestFirst _).mem_iff]
    simp [List.mem_filter]
  · exact List.sorted_insertionSort newestFirst _
  · intro article_id a h
    unfold get_article_route at h
    have hp := List.find?_some h
    simp only [Bool.and_eq_true, beq_iff_eq] at hp
    exact hp.2

/-- Witness for C2: with one row per user, listing for the first user
contains that user's row. -/
theorem articles_scoped_and_sorted_witness :
    ({ id := "a1", user_id := "u1", keyword := "k1", content := "c1",
       html_content := "c1", published := false, publish_url := none,
       created_at := 5 } : Article) ∈
      get_articles_route "u1"
        [{ id := "a1", user_id := "u1", keyword := "k1", content := "c1",
           html_content := "c1", published := false, publish_url := none,
           created_at := 5 },
         { id := "a2", user_id := "u2", keyword := "k2", content := "c2",
           html_content := "c2", published := false, publish_url := none,
           created_at := 6 }] :=
  ((articles_scoped_and_sorted "u1"
      [{ id := "a1", user_id := "u1", keyword := "k1", content := "c1",
         html_content := "c1", published := false, publish_url := none,
         created_at := 5 },
       { id := "a2", user_id := "u2", keyword := "k2", content := "c2",
         html_content := "c2", published := false, publish_url := none,
         created_at := 6 }]).1 _).mpr ⟨by decide, rfl⟩

/-- C6: publishing an already-published article succeeds again and leaves
the table exactly as the first publish left it — `published` stays true, the
URL is unchanged, and there is no other observable effect. -/
theorem publish_idempotent (current_user_id article_id : String)
    (articles : List Article)
    (h : (publish_article_route current_user_id article_id articles).status = 200) :
    publish_article_route current_user_id article_id
        (publish_article_route current_user_id article_id articles).articles
      = publish_article_route current_user_id article_id articles := by
  cases hfind : articles.find?
      (fun a => a.id == article_id && a.user_id == current_user_id) with
  | none => simp [publish_article_route, hfind] at h
  | some a0 =>
      have hpres : ∀ x : Article,
          ((if x.id == article_id && x.user_id == current_user_id
              then publishUpdate x else x).id == article_id &&
            (if x.id == article_id && x.user_id == current_user_id
              then publishUpdate x else x).user_id == current_user_id)
            = (x.id == article_id && x.user_id == current_user_id) := by
        intro x
        by_cases hx : (x.id == article_id && x.user_id == current_user_id) = true
        · simp [hx, publishUpdate]
        · simp [hx]
      have hidem : ∀ x : Article,
          (if (if x.id == article_id && x.user_id == current_user_id
                then publishUpdate x else x).id == article_id &&
              (if x.id == article_id && x.user_id == current_user_id
                then publishUpdate x else x).user_id == current_user_id
            then publishUpdate (if x.id == article_id && x.user_id == current_user_id
                then publishUpdate x else x)
            else (if x.id == article_id && x.user_id == current_user_id
                then publishUpdate x else x))
            = (if x.id == article_id && x.user_id == current_user_id
                then publishUpdate x else x) := by
        intro x
        by_cases hx : (x.id == article_id && x.user_id == current_user_id) = true
        · simp [hx, publishUpdate]
        · simp [hx]
      have hroute : publish_article_route current_user_id article_id articles
          = { status := 200,
              articles := articles.map (fun x =>
                if x.id == article_id && x.user_id == current_user_id
                  then publishUpdate x else x) } := by
        simp [publish_article_route, hfind]
      have hmapfind : (articles.map (fun x =>
            if x.id == article_id && x.user_id == current_user_id
              then publishUpdate x else x)).find?
            (fun a => a.id == article_id && a.user_id == current_user_id)
          = some (if a0.id == article_id && a0.user_id == current_user_id
              then publishUpdate a0 else a0) := by
        rw [find?_map_pres _ _ hpres articles, hfind]
        rfl
      rw [hroute]
      simp only [publish_article_route, hmapfind]
      rw [map_idem _ hidem]

/-- Witness for C6 at a concrete owned article. -/
theorem publish_idempotent_witness :
    publish_article_route "u1" "a1"
        (publish_article_route "u1" "a1"
          [{ id := "a1", user_id := "u1", keyword := "k1", content := "c1",
             html_content := "c1", published := false, publish_url := none,
             created_at := 5 }]).articles
      = publish_article_route "u1" "a1"
          [{ id := "a1", user_id := "u1", keyword := "k1", content := "c1",
             html_content := "c1", published := false, publish_url := none,
             created_at := 5 }] :=
  publish_idempotent "u1" "a1"
    [{ id := "a1", user_id := "u1", keyword := "k1", content := "c1",
       html_content := "c1", published := false, publish_url := none,
       created_at := 5 }] (by decide)

/-- C8: updating existing settings only overwrites the supplied columns —
every column whose key is absent from the payload keeps its prior value. -/
theorem settings_partial_update_frame (current_user_id new_id : String)
    (s : Settings) (data : List (SettingsKey × String)) (k : SettingsKey)
    (h : k ∉ data.map Prod.fst) :
    (manage_settings_post current_user_id (some s) new_id data).getAttr k
      = s.getAttr k :=
  getAttr_applySetattr_not_mem data s k h

/-- Witness for C8: a payload touching only the brand name leaves the brand
guidelines unchanged. -/
theorem settings_partial_update_frame_witness :
    (manage_settings_post "u1"
        (some { id := "s1", user_id := "u1", shopify_url := "",
                brand_name := "VoltCo", business_type := "retailer",
                brand_guidelines := "friendly tone", content_type := "casual" })
        "n1" [(SettingsKey.brand_name, "NewCo")]).getAttr
      SettingsKey.brand_guidelines = "friendly tone" :=
  (settings_partial_update_frame "u1" "n1"
    { id := "s1", user_id := "u1", shopify_url := "", brand_name := "VoltCo",
      business_type := "retailer", brand_guidelines := "friendly tone",
      content_type := "casual" }
    [(SettingsKey.brand_name, "NewCo")] SettingsKey.brand_guidelines
    (by decide)).trans rfl

/-- C9: the settings update applies every payload key with no allow-list — a
payload whose last `user_id` (resp. `id`) binding carries `v` leaves `v` in
the stored record's `user_id` (resp. `id`) column, so a caller can rewrite
ownership and identity. -/
theorem settings_no_allowlist (current_user_id new_id : String) (s : Settings) :
    (∀ (pre post : List (SettingsKey × String)) (v : String),
      SettingsKey.user_id ∉ post.map Prod.fst →
      (manage_settings_post current_user_id (some s) new_id
          (pre ++ (SettingsKey.user_id, v) :: post)).user_id = v) ∧
    (∀ (pre post : List (SettingsKey × String)) (v : String),
      SettingsKey.id ∉ post.map Prod.fst →
      (manage_settings_post current_user_id (some s) new_id
          (pre ++ (SettingsKey.id, v) :: post)).id = v) := by
  constructor
  · intro pre post v hpost
    exact getAttr_applySetattr_last pre post s SettingsKey.user_id v hpost
  · intro pre post v hpost
    exact getAttr_applySetattr_last pre post s SettingsKey.id v hpost

/-- Witness for C9: a one-key payload rewrites the ownership column. -/
theorem settings_no_allowlist_witness :
    (manage_settings_post "victim"
        (some { id := "s3", user_id := "victim", shopify_url := "",
                brand_name := "b", business_type := "t", brand_guidelines := "g",
                content_type := "c" })
        "n3" [(SettingsKey.user_id, "attacker")]).user_id = "attacker" :=
  (settings_no_allowlist "victim" "n3"
    { id := "s3", user_id := "victim", shopify_url := "", brand_name := "b",
      business_type := "t", brand_guidelines := "g", content_type := "c" }).1
    [] [] "attacker" (by decide)
